import Mathlib

/-!
Verification of the batch beatmap downloader (src/beatmap_downloader.py).

This file gives a shallow embedding of the downloader's pure data and control
flow: the filename sanitizer `fixedfilename`, the per-item download handler
`download_map`, the batch partitioning of a page, and the main scheduler loop
(`runBody` / `main_run`) including its `try/except KeyboardInterrupt/finally`
structure, together with theorems about the offset cursor, termination,
error handling and file-system effects.

Network interaction is modelled by an environment `Env` that fixes, for each
offset, the catalog page the search endpooint would return, and for each
beatmapset id, the HTTP response of the download endpoint.  The while loop is
embedded with explicit fuel.
-/

namespace BeatmapDownloader

/-! ### Filename sanitization (lines 76-85) -/

/-- Single-character replacement, the semantics of Python's
`str.replace(a, b)` when `a` is one character. -/
def replaceChar (a b : Char) (s : List Char) : List Char :=
  s.map (fun c => if c = a then b else c)

/-- Embedding of `fixedfilename` (lines 76-85): nine chained single-character
`replace` calls, applied in source order `< > / \ : * ? " |`, each replacing
the character with an underscore. -/
def fixedfilenameChars (s : List Char) : List Char :=
  replaceChar '|' '_'
    (replaceChar '"' '_'
      (replaceChar '?' '_'
        (replaceChar '*' '_'
          (replaceChar ':' '_'
            (replaceChar '\\' '_'
              (replaceChar '/' '_'
                (replaceChar '>' '_'
                  (replaceChar '<' '_' s))))))))

/-- The `fixedfilename` of the source, as a `String` transformer. -/
def fixedfilename (s : String) : String :=
  String.mk (fixedfilenameChars s.data)

/-- The nine reserved characters replaced by `fixedfilename`. -/
def reservedChars : List Char := ['<', '>', '/', '\\', ':', '*', '?', '"', '|']

/-- One-pass sanitization of a single character, the spec's description of the
sanitizer ("replacing any of the characters with an underscore"). -/
def sanitizeChar (c : Char) : Char :=
  if c ∈ reservedChars then '_' else c

/-- One-pass sanitization of a character list. -/
def sanitizeOnePass (s : List Char) : List Char :=
  s.map sanitizeChar

/-- The character transformation performed by the nine chained replaces of
`fixedfilename`, expressed on a single character in source order. -/
def chainChar (c : Char) : Char :=
  let c1 := if c = '<' then '_' else c
  let c2 := if c1 = '>' then '_' else c1
  let c3 := if c2 = '/' then '_' else c2
  let c4 := if c3 = '\\' then '_' else c3
  let c5 := if c4 = ':' then '_' else c4
  let c6 := if c5 = '*' then '_' else c5
  let c7 := if c6 = '?' then '_' else c6
  let c8 := if c7 = '"' then '_' else c7
  if c8 = '|' then '_' else c8

lemma fixedfilenameChars_cons (c : Char) (s : List Char) :
    fixedfilenameChars (c :: s) = chainChar c :: fixedfilenameChars s := rfl

lemma chainChar_eq_sanitizeChar (c : Char) : chainChar c = sanitizeChar c := by
  unfold chainChar sanitizeChar reservedChars
  by_cases h1 : c = '<'
  · subst h1; decide
  by_cases h2 : c = '>'
  · subst h2; decide
  by_cases h3 : c = '/'
  · subst h3; decide
  by_cases h4 : c = '\\'
  · subst h4; decide
  by_cases h5 : c = ':'
  · subst h5; decide
  by_cases h6 : c = '*'
  · subst h6; decide
  by_cases h7 : c = '?'
  · subst h7; decide
  by_cases h8 : c = '"'
  · subst h8; decide
  by_cases h9 : c = '|'
  · subst h9; decide
  simp [h1, h2, h3, h4, h5, h6, h7, h8, h9]

lemma fixedfilenameChars_eq_map (s : List Char) :
    fixedfilenameChars s = sanitizeOnePass s := by
  induction s with
  | nil => rfl
  | cons c s ih =>
    rw [fixedfilenameChars_cons, ih]
    unfold sanitizeOnePass
    rw [List.map_cons, chainChar_eq_sanitizeChar]

lemma sanitizeChar_idem (c : Char) : sanitizeChar (sanitizeChar c) = sanitizeChar c := by
  by_cases h : c ∈ reservedChars
  · have h1 : sanitizeChar c = '_' := by simp [sanitizeChar, h]
    rw [h1]; decide
  · have h1 : sanitizeChar c = c := by simp [sanitizeChar, h]
    rw [h1, h1]

lemma sanitizeOnePass_idem (s : List Char) :
    sanitizeOnePass (sanitizeOnePass s) = sanitizeOnePass s := by
  unfold sanitizeOnePass
  rw [List.map_map]
  exact List.map_congr_left (fun c _ => sanitizeChar_idem c)

lemma fixedfilenameChars_idem (s : List Char) :
    fixedfilenameChars (fixedfilenameChars s) = fixedfilenameChars s := by
  simp only [fixedfilenameChars_eq_map, sanitizeOnePass_idem]

/-- C4: filename sanitization is idempotent (sanitizing an already sanitized
name is the identity), it agrees with a single one-pass replacement of all
nine reserved characters by an underscore, and on the spec's example it sends
`My:File<1>.osz` to `My_File_1_.osz`. -/
theorem c4_fixedfilename_idempotent_one_pass :
    (∀ s : String, fixedfilename (fixedfilename s) = fixedfilename s) ∧
    (∀ s : String, fixedfilename s = String.mk (sanitizeOnePass s.data)) ∧
    fixedfilename (String.mk ['M', 'y', ':', 'F', 'i', 'l', 'e', '<', '1', '>', '.', 'o', 's', 'z'])
      = String.mk ['M', 'y', '_', 'F', 'i', 'l', 'e', '_', '1', '_', '.', 'o', 's', 'z'] := by
  refine ⟨?_, ?_, ?_⟩
  · intro s
    show String.mk (fixedfilenameChars (fixedfilenameChars s.data))
        = String.mk (fixedfilenameChars s.data)
    exact congrArg String.mk (fixedfilenameChars_idem s.data)
  · intro s
    exact congrArg String.mk (fixedfilenameChars_eq_map s.data)
  · decide

/-! ### Data model -/

/-- One catalog item. The source's `Beatmap` pydantic model carries many
display-metadata fields; the downloader's control flow reads only
`beatmapset_id` (line 149), so only that field is embedded. -/
structure Beatmap where
  beatmapset_id : Nat
deriving DecidableEq

/-- The `QueryMaps` response model (lines 41-43). -/
structure QueryMaps where
  result_count : Nat
  beatmaps : List Beatmap
deriving DecidableEq

/-- Response of the download endpoint for one beatmapset, as distinguished by
`download_map` (lines 91-109): 429, 404, or a successful streamed body with a
Content-Length, a server-suggested filename (the value carried by
Content-Disposition after stripping the attachment wrapper) and a list of
chunk sizes. -/
inductive DlResponse where
  | rateLimited429 : DlResponse
  | notFound404 : DlResponse
  | ok (contentLength : Nat) (filename : String) (chunks : List Nat) : DlResponse
deriving DecidableEq

/-- Observable side effects of the downloader, in program order. -/
inductive Effect where
  | streamOpen (setid : Nat)
  | consolePrint (msg : String)
  | fileOpen (name : String)
  | fileWrite (name : String) (bytes : Nat)
  | fileClose (name : String)
  | progressLog (msg : String)
  | clientClose
  | httpDelete (url : String)
deriving DecidableEq

/-- Outcome of one `download_map` call when it returns normally. The early
`return` on 404 (line 96) is the spec's `Skipped(NotFound)`; falling off the
end after streaming the file is the spec's `Completed`. -/
inductive DlOutcome where
  | completed (filename : String)
  | skipped
deriving DecidableEq

/-- Termination of one `download_map` call: a normal return or a raised
exception (the `raise Exception("429 Too Many Requests")` at line 94). -/
inductive DlTerm where
  | returned (o : DlOutcome)
  | raised (msg : String)
deriving DecidableEq

/-- Result of one `download_map` call: how it ended, the effects it produced,
and how much it added to the global `downloaded_count` tally. -/
structure DlRun where
  term : DlTerm
  effects : List Effect
  tallyDelta : Nat
deriving DecidableEq

/-- Embedding of `download_map` (lines 87-109).  It opens the download stream,
then branches on the status code: 429 prints and raises; 404 returns at once
(before any file is opened); otherwise it sanitizes the server-suggested
filename, opens the destination file, writes every chunk, closes the file,
logs completion and increments the tally by one. -/
def download_map (setid : Nat) (resp : DlResponse) : DlRun :=
  match resp with
  | .rateLimited429 =>
      { term := .raised "429 Too Many Requests"
        effects := [.streamOpen setid, .consolePrint "[red]429 Too Many Requests"]
        tallyDelta := 0 }
  | .notFound404 =>
      { term := .returned .skipped
        effects := [.streamOpen setid]
        tallyDelta := 0 }
  | .ok _total fname chunks =>
      let f := fixedfilename fname
      { term := .returned (.completed f)
        effects := [.streamOpen setid, .fileOpen f]
            ++ chunks.map (fun b => .fileWrite f b)
            ++ [.fileClose f, .progressLog (f ++ " 下載完成!")]
        tallyDelta := 1 }

/-! ### Batch partitioning (line 147) -/

/-- The fixed batch size (line 121). -/
def batchSize : Nat := 3

/-- The slice start indices produced by `range(0, n, batch)` for a page of
`n` items: `0, 3, 6, ...` while below `n`. -/
def batchStarts (n : Nat) : List Nat :=
  (List.range ((n + batchSize - 1) / batchSize)).map (fun i => i * batchSize)

/-- The sub-batches of one page, the slices `beatmaps[r:r+batch]` taken by the
loop at lines 147-150. -/
def mainBatches (items : List Beatmap) : List (List Beatmap) :=
  (batchStarts items.length).map (fun r => (items.drop r).take batchSize)

/-- C5: for a page of 5 items and batch size 3 the scheduler issues exactly
two sub-batches, the first of size 3 and the second of size 2, in that order;
each sub-batch is one `asyncio.gather` call, so its size is the number of
concurrent downloads while it runs, and `runBatchList` below folds the list
sequentially, so the second begins only after the first resolves. -/
theorem c5_five_items_two_batches (a b c d e : Beatmap) :
    mainBatches [a, b, c, d, e] = [[a, b, c], [d, e]] ∧
    (mainBatches [a, b, c, d, e]).map List.length = [3, 2] := by
  have hm : mainBatches [a, b, c, d, e] = [[a, b, c], [d, e]] := by
    have h5 : batchStarts 5 = [0, 3] := by decide
    have hlen : ([a, b, c, d, e] : List Beatmap).length = 5 := by simp
    unfold mainBatches
    rw [hlen, h5]
    rfl
  refine ⟨hm, ?_⟩
  rw [hm]
  rfl

/-- C6: a 404 response makes `download_map` return the `Skipped` outcome: it
is a normal return (not a raised error for any message) and the completed
download tally is not incremented. -/
theorem c6_404_skipped_not_counted (setid : Nat) :
    (download_map setid .notFound404).term = DlTerm.returned DlOutcome.skipped ∧
    (download_map setid .notFound404).tallyDelta = 0 ∧
    ∀ msg, (download_map setid .notFound404).term ≠ DlTerm.raised msg := by
  refine ⟨rfl, rfl, ?_⟩
  intro msg h
  rw [show (download_map setid .notFound404).term = DlTerm.returned DlOutcome.skipped from rfl] at h
  exact DlTerm.noConfusion h

/-- C10: on a 404 response `download_map` returns before touching the file
system: its only effect is opening the download stream, and in particular no
destination file is opened, written or closed. -/
theorem c10_404_no_file_effects (setid : Nat) :
    (download_map setid .notFound404).effects = [Effect.streamOpen setid] ∧
    (∀ name, Effect.fileOpen name ∉ (download_map setid .notFound404).effects) ∧
    (∀ name bytes, Effect.fileWrite name bytes ∉ (download_map setid .notFound404).effects) ∧
    (∀ name, Effect.fileClose name ∉ (download_map setid .notFound404).effects) := by
  refine ⟨rfl, ?_, ?_, ?_⟩ <;> intros <;> simp [download_map]

/-! ### The scheduler loop (main, lines 118-163) -/

/-- Environment fixing the external world of one run: the catalog page the
search endpoint returns for each offset (`none` models `query_maps` raising a
network error), the download endpoint's response for each beatmapset id, and
the loop iteration (if any) at whose start a KeyboardInterrupt is delivered. -/
structure Env where
  pages : Nat → Option QueryMaps
  resp : Nat → DlResponse
  interruptAt : Option Nat

/-- Exceptions that can be pending in the embedded control flow. -/
inductive PyExc where
  | keyboardInterrupt
  | fetchError
  | tooManyRequests
  | attributeError (msg : String)
  | systemExit
deriving DecidableEq

/-- Result of running the downloads of one or more batches: tally increments,
effects, and whether a 429 exception was raised. -/
structure BatchesRun where
  tallyDelta : Nat
  effects : List Effect
  raised : Bool
deriving DecidableEq

/-- One `asyncio.gather` call over one sub-batch (lines 148-150): every member
starts, the gather raises iff some member raises.  Sibling tasks of a raising
member are not cancelled by gather; since their completions are then
timing-dependent, this deterministic model counts tally increments only for
batches in which no member raised. -/
def runBatch (env : Env) (batch : List Beatmap) : BatchesRun :=
  let runs := batch.map (fun m => download_map m.beatmapset_id (env.resp m.beatmapset_id))
  { tallyDelta :=
      if runs.any (fun r => match r.term with | .raised _ => true | _ => false) then 0
      else (runs.map (fun r => r.tallyDelta)).sum
    effects := (runs.map (fun r => r.effects)).flatten
    raised := runs.any (fun r => match r.term with | .raised _ => true | _ => false) }

/-- Sequential execution of the sub-batches of one page (the `for r in range`
loop, lines 147-150): each gather is awaited before the next begins, and a
raising gather propagates at once, so no later sub-batch starts. -/
def runBatchList (env : Env) : List (List Beatmap) → BatchesRun
  | [] => { tallyDelta := 0, effects := [], raised := false }
  | b :: rest =>
    let r := runBatch env b
    if r.raised then { tallyDelta := r.tallyDelta, effects := r.effects, raised := true }
    else
      let r2 := runBatchList env rest
      { tallyDelta := r.tallyDelta + r2.tallyDelta
        effects := r.effects ++ r2.effects
        raised := r2.raised }

/-- State threaded through the while loop: the offset cursor, the global
`downloaded_count` tally, the list of offsets at which `query_maps` has been
called so far, the number of non-empty pages fully processed (each advanced
the offset by one at line 153), and the effects emitted so far. -/
structure LoopState where
  offset : Nat
  tally : Nat
  visited : List Nat
  succPages : Nat
  events : List Effect
deriving DecidableEq

/-- The initial loop state at a caller-supplied starting offset. -/
def initState (offset0 : Nat) : LoopState :=
  { offset := offset0, tally := 0, visited := [], succPages := 0, events := [] }

/-- Result of one iteration of the while loop: either the loop goes on with a
new state, or it halts with a final state and an optional pending exception
(`none` models the normal exit through `running = False`). -/
inductive StepRes where
  | next (st : LoopState)
  | halt (st : LoopState) (exc : Option PyExc)
deriving DecidableEq

/-- One iteration of the `while running` loop (lines 141-156): deliver a
pending KeyboardInterrupt if one is scheduled at this iteration; call
`query_maps(offset)` (line 143), which may raise; run the page's sub-batches,
which may raise 429; then either advance the offset by one (non-empty page,
line 153) and continue, or log and stop (empty page, lines 154-156). -/
def loopStep (env : Env) (st : LoopState) (iter : Nat) : StepRes :=
  if env.interruptAt = some iter then
    .halt st (some .keyboardInterrupt)
  else
    let st1 := { st with
      visited := st.visited ++ [st.offset]
      events := st.events ++ [.progressLog "正在獲取圖譜資訊..."] }
    match env.pages st.offset with
    | none => .halt st1 (some .fetchError)
    | some page =>
      let st2 := { st1 with
        events := st1.events ++
          (if page.result_count > 0 then
            [Effect.progressLog ("總計找到 " ++ toString page.result_count ++ " 張圖譜")]
          else ([] : List Effect)) }
      let br := runBatchList env (mainBatches page.beatmaps)
      let st3 := { st2 with tally := st2.tally + br.tallyDelta, events := st2.events ++ br.effects }
      if br.raised then
        .halt st3 (some .tooManyRequests)
      else if page.beatmaps.isEmpty then
        .halt { st3 with events := st3.events ++ [.consolePrint "已經沒有圖了!"] } none
      else
        .next { st3 with offset := st3.offset + 1, succPages := st3.succPages + 1 }

/-- The `while running` loop as iterated `loopStep`, with explicit fuel
bounding the number of iterations; running out of fuel reports the state
reached so far with no pending exception. -/
def runBody (env : Env) : Nat → LoopState → Nat → LoopState × Option PyExc
  | 0, st, _ => (st, none)
  | fuel + 1, st, iter =>
    match loopStep env st iter with
    | .halt st' e => (st', e)
    | .next st' => runBody env fuel st' (iter + 1)

/-- The `except KeyboardInterrupt` handler (lines 157-161): it prints, closes
the async client, prints again, and then evaluates `console.logout()`.
`rich.console.Console` defines no method named `logout`, so that attribute
access raises an AttributeError; the module-level `logout()` function of line
112 is never called here. -/
def interruptHandler : List Effect × Option PyExc :=
  ([.consolePrint "等待http_client停止", .clientClose, .consolePrint "登出中..."],
   some (.attributeError "Console.logout"))

/-- Effects of the module-level `logout()` (lines 112-116): a best-effort
DELETE of the session resource.  Unused by the interrupt handler. -/
def logout_effects : List Effect := [.httpDelete "https://osu.ppy.sh/session"]

/-- The `except KeyboardInterrupt:` clause (line 157): it consumes only a
pending KeyboardInterrupt, replacing it by the handler's own outcome; any
other pending exception passes through untouched. -/
def exceptClause : Option PyExc → List Effect × Option PyExc
  | some .keyboardInterrupt => interruptHandler
  | e => ([], e)

/-- Result of `main`'s loop section: the value `main` returns, the final loop
state, the exception (if any) the `finally` clause discarded, and the
exception (if any) escaping `main` from this section. -/
structure MainResult where
  retOffset : Nat
  final : LoopState
  swallowed : Option PyExc
  escaped : Option PyExc

/-- Embedding of the try/except/finally of `main` (lines 140-163).  The
`finally:` clause executes `return offset`; in Python a `return` inside
`finally` discards any pending exception, so this section always returns the
current offset and lets no exception escape — including the AttributeError
the interrupt handler itself raises. -/
def main_run (env : Env) (fuel : Nat) (offset0 : Nat) : MainResult :=
  let bodyRes := runBody env fuel (initState offset0) 0
  let handled := exceptClause bodyRes.2
  let st2 := { bodyRes.1 with events := bodyRes.1.events ++ handled.1 }
  { retOffset := st2.offset, final := st2, swallowed := handled.2, escaped := none }

/-! ### Trace lemmas for the loop -/

lemma loopStep_halt_fields (env : Env) (st : LoopState) (iter : Nat) (st' : LoopState)
    (e : Option PyExc) (h : loopStep env st iter = .halt st' e) :
    st'.offset = st.offset ∧ st'.succPages = st.succPages ∧
    (st'.visited = st.visited ∨ st'.visited = st.visited ++ [st.offset]) := by
  unfold loopStep at h
  split at h
  · cases h
    simp
  · cases hp : env.pages st.offset with
    | none =>
      rw [hp] at h
      simp only [] at h
      cases h
      simp
    | some page =>
      rw [hp] at h
      simp only [] at h
      split at h
      · cases h
        simp
      · split at h
        · cases h
          simp
        · cases h

lemma loopStep_next_fields (env : Env) (st : LoopState) (iter : Nat) (st' : LoopState)
    (h : loopStep env st iter = .next st') :
    st'.offset = st.offset + 1 ∧ st'.succPages = st.succPages + 1 ∧
    st'.visited = st.visited ++ [st.offset] := by
  unfold loopStep at h
  split at h
  · cases h
  · cases hp : env.pages st.offset with
    | none =>
      rw [hp] at h
      simp only [] at h
      cases h
    | some page =>
      rw [hp] at h
      simp only [] at h
      split at h
      · cases h
      · split at h
        · cases h
        · cases h
          simp

lemma chain'_range'_add_one (n s : Nat) :
    List.Chain' (fun a b => b = a + 1) (List.range' s n) := by
  induction n generalizing s with
  | zero => simp
  | succ m ih =>
    cases m with
    | zero => simp
    | succ k =>
      rw [List.range'_succ, List.range'_succ, List.chain'_cons]
      refine ⟨rfl, ?_⟩
      rw [← List.range'_succ]
      exact ih (s + 1)

/-- The offsets visited by the loop starting from `st` form a contiguous
run `range' st.offset m`, the offset advances exactly in step with the count
of fully processed non-empty pages, and the visit count `m` exceeds that
count by at most one (the final visit of a run that halts after a fetch). -/
lemma runBody_trace (env : Env) :
    ∀ (fuel iter : Nat) (st : LoopState),
      ∃ d m,
        (runBody env fuel st iter).1.offset = st.offset + d ∧
        (runBody env fuel st iter).1.succPages = st.succPages + d ∧
        (runBody env fuel st iter).1.visited = st.visited ++ List.range' st.offset m ∧
        (m = d ∨ m = d + 1) := by
  intro fuel
  induction fuel with
  | zero =>
    intro iter st
    exact ⟨0, 0, by simp [runBody], by simp [runBody], by simp [runBody], Or.inl rfl⟩
  | succ n ih =>
    intro iter st
    cases hS : loopStep env st iter with
    | halt st' e =>
      obtain ⟨h1, h2, h3⟩ := loopStep_halt_fields env st iter st' e hS
      have hrb : runBody env (n + 1) st iter = (st', e) := by
        simp [runBody, hS]
      rcases h3 with h3 | h3
      · exact ⟨0, 0, by simp [hrb, h1], by simp [hrb, h2], by simp [hrb, h3], Or.inl rfl⟩
      · exact ⟨0, 1, by simp [hrb, h1], by simp [hrb, h2], by simp [hrb, h3], Or.inr rfl⟩
    | next st' =>
      obtain ⟨h1, h2, h3⟩ := loopStep_next_fields env st iter st' hS
      have hrb : runBody env (n + 1) st iter = runBody env n st' (iter + 1) := by
        simp [runBody, hS]
      obtain ⟨d, m, g1, g2, g3, g4⟩ := ih (iter + 1) st'
      refine ⟨d + 1, m + 1, ?_, ?_, ?_, ?_⟩
      · rw [hrb, g1, h1]; omega
      · rw [hrb, g2, h2]; omega
      · rw [hrb, g3, h3, h1, List.range'_succ]
        simp
      · rcases g4 with g4 | g4
        · exact Or.inl (by omega)
        · exact Or.inr (by omega)

lemma initState_offset (o : Nat) : (initState o).offset = o := rfl

lemma initState_succPages (o : Nat) : (initState o).succPages = 0 := rfl

lemma initState_visited (o : Nat) : (initState o).visited = [] := rfl

lemma main_run_final_visited (env : Env) (fuel offset0 : Nat) :
    (main_run env fuel offset0).final.visited = (runBody env fuel (initState offset0) 0).1.visited := rfl

lemma main_run_final_succPages (env : Env) (fuel offset0 : Nat) :
    (main_run env fuel offset0).final.succPages =
      (runBody env fuel (initState offset0) 0).1.succPages := rfl

lemma main_run_retOffset (env : Env) (fuel offset0 : Nat) :
    (main_run env fuel offset0).retOffset = (runBody env fuel (initState offset0) 0).1.offset := rfl

lemma main_run_final_offset (env : Env) (fuel offset0 : Nat) :
    (main_run env fuel offset0).final.offset = (runBody env fuel (initState offset0) 0).1.offset := rfl

/-- C1: within a single run the scheduler visits offsets in strictly
increasing order and never repeats one — the visited offsets are exactly the
contiguous range starting at the given offset, are strictly sorted, and each
consecutive pair differs by exactly 1 — and the offset cursor ends at the
starting offset plus the number of successfully processed non-empty pages,
i.e. it advanced by exactly 1 per such page. -/
theorem c1_offsets_strictly_increasing (env : Env) (fuel offset0 : Nat) :
    (main_run env fuel offset0).final.visited =
        List.range' offset0 (main_run env fuel offset0).final.visited.length ∧
    List.Pairwise (· < ·) (main_run env fuel offset0).final.visited ∧
    List.Chain' (fun a b => b = a + 1) (main_run env fuel offset0).final.visited ∧
    (main_run env fuel offset0).retOffset =
        offset0 + (main_run env fuel offset0).final.succPages := by
  obtain ⟨d, m, h1, h2, h3, _⟩ := runBody_trace env fuel 0 (initState offset0)
  simp only [initState_offset, initState_succPages, initState_visited] at h1 h2 h3
  have hv : (main_run env fuel offset0).final.visited = List.range' offset0 m := by
    rw [main_run_final_visited, h3]
    simp
  refine ⟨?_, ?_, ?_, ?_⟩
  · rw [hv, List.length_range']
  · rw [hv]
    exact List.pairwise_lt_range' offset0 m
  · rw [hv]
    exact chain'_range'_add_one m offset0
  · rw [main_run_retOffset, main_run_final_succPages, h1, h2]
    omega

/-- C3: on every exit path of the loop section — normal termination, abort on
a fetch error or batch 429, or KeyboardInterrupt — `main` lets no exception
escape and returns exactly the offset the loop reached (the `return offset`
in `finally` discards any pending exception), which equals the starting
offset plus the number of pages successfully processed, enabling resume. -/
theorem c3_offset_returned_on_every_exit (env : Env) (fuel offset0 : Nat) :
    (main_run env fuel offset0).escaped = none ∧
    (main_run env fuel offset0).retOffset = (runBody env fuel (initState offset0) 0).1.offset ∧
    (main_run env fuel offset0).retOffset =
        offset0 + (main_run env fuel offset0).final.succPages := by
  refine ⟨rfl, rfl, ?_⟩
  obtain ⟨d, m, h1, h2, _, _⟩ := runBody_trace env fuel 0 (initState offset0)
  simp only [initState_offset, initState_succPages] at h1 h2
  rw [main_run_retOffset, main_run_final_succPages, h1, h2]
  omega

/-- C9: whenever the page fetched at the current offset contains zero items
(and no interrupt is pending at that iteration), the loop exits normally
(`running = False`, pending exception `none`) and the offset is not advanced
further. -/
theorem c9_empty_page_terminates (env : Env) (fuel iter : Nat) (st : LoopState)
    (page : QueryMaps) (hI : env.interruptAt ≠ some iter)
    (hP : env.pages st.offset = some page) (hE : page.beatmaps = []) :
    (runBody env (fuel + 1) st iter).2 = none ∧
    (runBody env (fuel + 1) st iter).1.offset = st.offset := by
  have hb : (runBatchList env (mainBatches ([] : List Beatmap))).raised = false := rfl
  refine ⟨?_, ?_⟩ <;> simp [runBody, loopStep, hI, hP, hE, hb]

/-- A concrete environment whose catalog is empty at every offset. -/
def c9Env : Env :=
  { pages := fun _ => some { result_count := 0, beatmaps := [] }
    resp := fun _ => DlResponse.notFound404
    interruptAt := none }

/-- The concrete loop state for the C9 witness: a run resumed at offset 5. -/
def c9St : LoopState := initState 5

/-- The empty page served by `c9Env`. -/
def c9Page : QueryMaps := { result_count := 0, beatmaps := [] }

theorem c9_empty_page_terminates_witness :
    (c9Env.interruptAt ≠ some 0 ∧ c9Env.pages c9St.offset = some c9Page ∧
      c9Page.beatmaps = []) ∧
    ((runBody c9Env 1 c9St 0).2 = none ∧ (runBody c9Env 1 c9St 0).1.offset = c9St.offset) :=
  ⟨⟨by simp [c9Env], rfl, rfl⟩,
    c9_empty_page_terminates c9Env 0 0 c9St c9Page (by simp [c9Env]) rfl rfl⟩

/-! ### The interrupt path (C8) -/

/-- A concrete environment for the interrupted run: every offset has a
one-item page, downloads succeed, and a KeyboardInterrupt is delivered at the
start of the first loop iteration. -/
def c8Env : Env :=
  { pages := fun _ => some { result_count := 1, beatmaps := [{ beatmapset_id := 42 }] }
    resp := fun _ => DlResponse.ok 10 "x.osz" [10]
    interruptAt := some 0 }

/-- C8 (code bug): on a KeyboardInterrupt the loop stops and the current
offset is still returned, but no session logout is performed: the handler's
`console.logout()` raises an AttributeError (rich's Console has no `logout`
method), which the `finally` return then discards, and the handler's effects
contain no DELETE of the session resource — the module-level `logout()` is
never invoked. -/
theorem c8_interrupt_performs_no_session_logout :
    (main_run c8Env 3 5).retOffset = 5 ∧
    (main_run c8Env 3 5).swallowed = some (PyExc.attributeError "Console.logout") ∧
    (main_run c8Env 3 5).final.events =
      [Effect.consolePrint "等待http_client停止", Effect.clientClose,
        Effect.consolePrint "登出中..."] ∧
    (∀ url, Effect.httpDelete url ∉ (main_run c8Env 3 5).final.events) ∧
    ∀ ef ∈ logout_effects, ef ∉ (main_run c8Env 3 5).final.events := by
  have hev : (main_run c8Env 3 5).final.events =
      [Effect.consolePrint "等待http_client停止", Effect.clientClose,
        Effect.consolePrint "登出中..."] := rfl
  refine ⟨rfl, rfl, hev, ?_, ?_⟩
  · intro url h
    rw [hev] at h
    simp at h
  · intro ef hef h
    simp only [logout_effects, List.mem_singleton] at hef
    subst hef
    rw [hev] at h
    simp at h

/-! ### The whole program (C7): login before the loop, `__main__` at the end -/

/-- Whether the login POST succeeds, the branch tested at line 67. -/
inductive LoginResp where
  | ok
  | error
deriving DecidableEq

/-- Environment of a whole program run: the loop environment plus the login
response. -/
structure ProgEnv where
  base : Env
  loginResp : LoginResp

/-- Embedding of `login` (lines 55-74) as called from `main` (line 130): on an
error status it prints the failure line and calls `exit()`, which raises
SystemExit; on success it prints the welcome line and returns normally. -/
def login_run : LoginResp → List Effect × Option PyExc
  | .error => ([.consolePrint "登入失敗!"], some .systemExit)
  | .ok => ([.consolePrint "登入成功!"], none)

/-- The `except Exception` at line 170 catches `Exception` subclasses only;
SystemExit derives from BaseException and passes through uncaught. -/
def caughtByTopHandler : PyExc → Bool
  | .systemExit => false
  | _ => true

/-- Observable result of one whole program run: the pair
(downloaded count, offset) printed by lines 175-176 if those lines run
(`none` if the process dies before them), the number of download attempts
(streams opened), the final tally, and the exception escaping the process. -/
structure ProgResult where
  printedFinal : Option (Nat × Nat)
  dlAttempts : Nat
  tally : Nat
  escaped : Option PyExc
deriving DecidableEq

/-- Number of download attempts in an effect list: streams opened. -/
def countStreamOpens (evs : List Effect) : Nat :=
  (evs.filter (fun e => match e with | .streamOpen _ => true | _ => false)).length

/-- Embedding of the `__main__` block (lines 166-176) composed with `main`:
`login` runs before `main`'s try/finally, so an exception it raises leaves
`main` without returning an offset; at top level, `except Exception` would
print the traceback and fall through to the final prints (where line 176
would read the never-assigned `offset` variable), but SystemExit is not an
`Exception`, so it escapes and the final prints at lines 175-176 never run.
If login succeeds, the loop section runs and always returns an offset, and
the final prints report the tally and that offset. -/
def program (penv : ProgEnv) (fuel : Nat) (offset0 : Nat) : ProgResult :=
  let lr := login_run penv.loginResp
  match lr.2 with
  | some e =>
    if caughtByTopHandler e then
      { printedFinal := none, dlAttempts := countStreamOpens lr.1, tally := 0, escaped := none }
    else
      { printedFinal := none, dlAttempts := countStreamOpens lr.1, tally := 0, escaped := some e }
  | none =>
    let r := main_run penv.base fuel offset0
    { printedFinal := some (r.final.tally, r.retOffset)
      dlAttempts := countStreamOpens (lr.1 ++ r.final.events)
      tally := r.final.tally
      escaped := none }

/-- A concrete loop environment for the failed-login run (its contents are
irrelevant: the loop is never reached). -/
def c7Base : Env :=
  { pages := fun _ => some { result_count := 0, beatmaps := [] }
    resp := fun _ => DlResponse.notFound404
    interruptAt := none }

/-- C7 counterexample: with a failing login and input offset 7, the program
prints no final offset at all — SystemExit bypasses the top-level
`except Exception` handler, so lines 175-176 never run — refuting the claim
that the offset printed on exit equals the input offset. -/
theorem c7_login_failure_counterexample :
    (program { base := c7Base, loginResp := .error } 5 7).printedFinal = none ∧
    ∀ t : Nat, (program { base := c7Base, loginResp := .error } 5 7).printedFinal ≠ some (t, 7) := by
  refine ⟨rfl, ?_⟩
  intro t h
  rw [show (program { base := c7Base, loginResp := .error } 5 7).printedFinal = none
      from rfl] at h
  exact Option.noConfusion h

/-- C7 amended: if login fails, the run terminates immediately with tally 0
and no download attempt is made, but nothing is printed on exit: the
SystemExit raised by `exit()` escapes the `except Exception` handler, so the
final tally/offset lines never run and no offset is printed. -/
theorem c7_login_failure_amended (e : Env) (fuel offset0 : Nat) :
    program { base := e, loginResp := .error } fuel offset0 =
      { printedFinal := none, dlAttempts := 0, tally := 0,
        escaped := some PyExc.systemExit } := rfl

end BeatmapDownloader
